import Mathlib

/-!
Verification of the llm-fallback repository: a shallow embedding in Lean 4 of
`available_models.py`, `event_payload.py` and `llm_handler.py`, followed by
theorems settling the specification's claims.

Modelling conventions:
* Python `str` is `String`, `int` is `Int`, `float` is `Rat` (every Python
  float literal appearing in the source, such as `0.7`, is embedded as the
  decimal it denotes), `None`/optional values are `Option`.
* Code that can raise returns `Except String` (the error message) or `Option`.
* The LiteLLM `completion` call is an external collaborator; it is modelled as
  an explicit adapter function parameter `Adapter`.  An adapter invocation
  either produces a payload (content, usage, best-effort cost) or raises with
  a message; the `try` block of `_call_model` catches exactly those raises.
-/

namespace LLMFallback

/-- The `AVAILABLE_MODELS` dict of `available_models.py`: model key to LiteLLM
model identifier, as an association list in source order. -/
def AVAILABLE_MODELS : List (String × String) :=
  [ ("claude-3-5-sonnet", "claude-3-5-sonnet-20241022"),
    ("claude-3-haiku", "claude-3-haiku-20240307"),
    ("gpt-4o", "gpt-4o"),
    ("gpt-4o-mini", "gpt-4o-mini"),
    ("gpt-4-turbo", "gpt-4-turbo"),
    ("claude-3-5-sonnet-bedrock", "bedrock/us.anthropic.claude-3-5-sonnet-20241022-v2:0"),
    ("claude-3-haiku-bedrock", "bedrock/anthropic.claude-3-haiku-20240307-v1:0"),
    ("cohere-command-r-plus", "cohere/command-r-plus"),
    ("gemini-1-5-pro", "gemini/gemini-1.5-pro") ]

/-- The `MODEL_NAMES` dict of `available_models.py`: model key to display
name, as an association list in source order. -/
def MODEL_NAMES : List (String × String) :=
  [ ("claude-3-5-sonnet", "Claude 3.5 Sonnet (Direct)"),
    ("claude-3-haiku", "Claude 3 Haiku (Direct)"),
    ("gpt-4o", "GPT-4o"),
    ("gpt-4o-mini", "GPT-4o Mini"),
    ("gpt-4-turbo", "GPT-4 Turbo"),
    ("claude-3-5-sonnet-bedrock", "Claude 3.5 Sonnet (Bedrock)"),
    ("claude-3-haiku-bedrock", "Claude 3 Haiku (Bedrock)"),
    ("cohere-command-r-plus", "Cohere Command R+"),
    ("gemini-1-5-pro", "Gemini 1.5 Pro") ]

/-- A Python single-quote character, used when rendering the available-keys
list the way Python `repr` renders a list of strings. -/
def pyQuote : String := String.singleton (Char.ofNat 39)

/-- Python `repr` of a list of strings, as interpolated into the `ValueError`
message of `get_model_id`. -/
def pyListRepr (xs : List String) : String :=
  "[" ++ String.intercalate ", " (xs.map (fun s => pyQuote ++ s ++ pyQuote)) ++ "]"

/-- The message of the `ValueError` raised by `get_model_id` on an unknown
key. -/
def unknown_model_message (model_key : String) : String :=
  "Unknown model: " ++ model_key ++ ". Available: " ++
    pyListRepr (AVAILABLE_MODELS.map Prod.fst)

/-- `get_model_id` of `available_models.py`: raises `ValueError` when the key
is not in `AVAILABLE_MODELS`, modelled as `Except.error`. -/
def get_model_id (model_key : String) : Except String String :=
  match AVAILABLE_MODELS.lookup model_key with
  | some model_id => Except.ok model_id
  | none => Except.error (unknown_model_message model_key)

/-- `get_model_name` of `available_models.py`: `MODEL_NAMES.get(model_key,
model_key)` — total, falls back to the key itself. -/
def get_model_name (model_key : String) : String :=
  (MODEL_NAMES.lookup model_key).getD model_key

/-- The `EventPayload` dataclass of `event_payload.py`.  The Python float
default `0.7` is embedded as the rational `7/10`. -/
structure EventPayload where
  prompt : String
  models : List String
  max_tokens : Int := 4000
  temperature : Rat := 7/10
  request_id : Option String := none
deriving DecidableEq

/-- `EventPayload.primary_model`: `self.models[0]`, which raises `IndexError`
on an empty list, modelled as `Option`. -/
def EventPayload.primary_model (p : EventPayload) : Option String :=
  p.models.head?

/-- `EventPayload.fallback_models`: `self.models[1:] if len(self.models) > 1
else []`. -/
def EventPayload.fallback_models (p : EventPayload) : List String :=
  if p.models.length > 1 then p.models.drop 1 else []

/-- A Python value as it appears in the payload's dict/JSON shape: a string,
an int, a float, a list of strings, or `None`. -/
inductive PyValue where
  | vstr (s : String)
  | vint (n : Int)
  | vfloat (q : Rat)
  | vlist (xs : List String)
  | vnone
deriving DecidableEq

/-- `EventPayload.to_dict`: the five-field dictionary, modelled as an
association list in source order. -/
def EventPayload.to_dict (p : EventPayload) : List (String × PyValue) :=
  [ ("prompt", PyValue.vstr p.prompt),
    ("models", PyValue.vlist p.models),
    ("max_tokens", PyValue.vint p.max_tokens),
    ("temperature", PyValue.vfloat p.temperature),
    ("request_id", match p.request_id with
                   | none => PyValue.vnone
                   | some s => PyValue.vstr s) ]

/-- Reading the optional `max_tokens` constructor argument: absent means the
dataclass default `4000`. -/
def readMaxTokens : Option PyValue → Option Int
  | none => some 4000
  | some (PyValue.vint n) => some n
  | some _ => none

/-- Reading the optional `temperature` constructor argument: absent means the
dataclass default `0.7`. -/
def readTemperature : Option PyValue → Option Rat
  | none => some (7/10)
  | some (PyValue.vfloat q) => some q
  | some _ => none

/-- Reading the optional `request_id` constructor argument: absent means the
dataclass default `None`. -/
def readRequestId : Option PyValue → Option (Option String)
  | none => some none
  | some PyValue.vnone => some none
  | some (PyValue.vstr s) => some (some s)
  | some _ => none

/-- `EventPayload.from_dict`, i.e. `cls(**data)`: a keyword not among the five
field names, or a missing required field, raises `TypeError` (modelled as
`none`).  Python dataclasses do not check argument types at run time; the
embedding is typed, so a wrongly-typed field value is also modelled as a
failure — such dicts are never produced by `to_dict`. -/
def EventPayload.from_dict (data : List (String × PyValue)) : Option EventPayload :=
  if data.all (fun kv => kv.1 = "prompt" ∨ kv.1 = "models" ∨ kv.1 = "max_tokens" ∨
                         kv.1 = "temperature" ∨ kv.1 = "request_id") then
    match data.lookup "prompt", data.lookup "models" with
    | some (PyValue.vstr pr), some (PyValue.vlist ms) =>
      match readMaxTokens (data.lookup "max_tokens"),
            readTemperature (data.lookup "temperature"),
            readRequestId (data.lookup "request_id") with
      | some mt, some tp, some rid =>
        some { prompt := pr, models := ms, max_tokens := mt,
               temperature := tp, request_id := rid }
      | _, _, _ => none
    | _, _ => none
  else none

/-- `EventPayload.to_json`: `json.dumps(self.to_dict(), indent=2)`.  The
stdlib `json` text codec is modelled at the JSON-object level: `dumps` maps
the dict of scalars/lists bijectively onto the JSON tree it prints, so the
serialized form is represented by the dict itself. -/
def EventPayload.to_json (p : EventPayload) : List (String × PyValue) :=
  p.to_dict

/-- `EventPayload.from_json`: `cls.from_dict(json.loads(json_str))`, with
`json.loads` modelled at the JSON-object level as the inverse of `dumps`. -/
def EventPayload.from_json (data : List (String × PyValue)) : Option EventPayload :=
  EventPayload.from_dict data

/-- The token-count mapping extracted from the provider response
(`response.usage._asdict()` or `dict(response.usage)`). -/
abbrev Usage := List (String × Int)

/-- The outcome of one LiteLLM `completion` invocation together with the
response-extraction code inside the `try` block of `_call_model`: either the
extracted payload (content, usage, and the best-effort cost, `none` when
`litellm.completion_cost` failed and the bare `except: pass` swallowed it),
or an exception carrying the message `str(e)`. -/
inductive AdapterOutcome where
  | ok (content : String) (usage : Usage) (cost : Option Rat)
  | exn (msg : String)
deriving DecidableEq

/-- The external provider-call adapter: a function of
`(model_id, prompt, max_tokens, temperature)`. -/
abbrev Adapter := String → String → Int → Rat → AdapterOutcome

/-- The dict returned by `_call_model`: either the success dict
`{'success': True, 'content': ..., 'model_used': model_id, 'usage': ...,
'cost': ...}` or the failure dict `{'success': False, 'error': ...}`. -/
inductive CallResult where
  | success (content : String) (model_used : String) (usage : Usage) (cost : Option Rat)
  | failed (error : String)
deriving DecidableEq

/-- `SimpleLLMHandler._call_model`.  `get_model_id` is called before the
`try` block, so its `ValueError` on an unknown key propagates to the caller
(`Except.error`); an exception from the adapter is caught and turned into the
failure dict with message `f"{model_name} failed: {str(e)}"`. -/
def call_model (adapter : Adapter) (model_key : String) (prompt : String)
    (max_tokens : Int) (temperature : Rat) : Except String CallResult :=
  match get_model_id model_key with
  | Except.error e => Except.error e
  | Except.ok model_id =>
    let model_name := get_model_name model_key
    match adapter model_id prompt max_tokens temperature with
    | AdapterOutcome.ok content usage cost =>
      Except.ok (CallResult.success content model_id usage cost)
    | AdapterOutcome.exn e =>
      Except.ok (CallResult.failed (model_name ++ " failed: " ++ e))

/-- One entry of the `attempts` list built by `process`:
`{'model': ..., 'name': ..., 'status': ..., 'error': ...}`. -/
structure Attempt where
  model : String
  name : String
  status : String
  error : String
deriving DecidableEq

/-- A default `Attempt`, used only as the out-of-range value of `List.getD`
in theorem statements. -/
def dAtt : Attempt := { model := "", name := "", status := "", error := "" }

/-- The attempt dict `process` appends for a completed `_call_model` call:
status is `'success' if result['success'] else 'failed'` and error is
`result.get('error', '')`. -/
def mkAttempt (model_key : String) (r : CallResult) : Attempt :=
  { model := model_key,
    name := get_model_name model_key,
    status := match r with
              | CallResult.success _ _ _ _ => "success"
              | CallResult.failed _ => "failed",
    error := match r with
             | CallResult.success _ _ _ _ => ""
             | CallResult.failed e => e }

/-- The `SimpleResponse` dataclass of `llm_handler.py`. -/
structure SimpleResponse where
  success : Bool
  content : Option String := none
  model_used : Option String := none
  cost : Option Rat := none
  usage : Option Usage := none
  error : Option String := none
  attempts : Option (List Attempt) := none
deriving DecidableEq

/-- The `for` loop of `SimpleLLMHandler.process` over the remaining model
keys, with the `attempts` list accumulated so far.  A `ValueError` escaping
`_call_model` (unknown key) propagates out of `process` as `Except.error`. -/
def processGo (adapter : Adapter) (payload : EventPayload) :
    List String → List Attempt → Except String SimpleResponse
  | [], attempts =>
    Except.ok { success := false,
                error := some ("All " ++ toString payload.models.length ++ " models failed"),
                attempts := some attempts }
  | model_key :: rest, attempts =>
    match call_model adapter model_key payload.prompt payload.max_tokens payload.temperature with
    | Except.error e => Except.error e
    | Except.ok r =>
      let attempts2 := attempts ++ [mkAttempt model_key r]
      match r with
      | CallResult.success content _ usage cost =>
        Except.ok { success := true, content := some content,
                    model_used := some model_key, cost := cost,
                    usage := some usage, attempts := some attempts2 }
      | CallResult.failed _ => processGo adapter payload rest attempts2

/-- `SimpleLLMHandler.process`: try each model of the payload in order with
an empty initial attempts list. -/
def process (adapter : Adapter) (payload : EventPayload) : Except String SimpleResponse :=
  processGo adapter payload payload.models []

/-- The outcome of `_call_model` for one key of the payload, with the
payload's prompt and generation parameters. -/
def keyOutcome (adapter : Adapter) (payload : EventPayload) (model_key : String) :
    Except String CallResult :=
  call_model adapter model_key payload.prompt payload.max_tokens payload.temperature

/-- The attempt record `process` builds for a key whose `_call_model` call
completes (proof-side abbreviation; the error branch is never reached in the
contexts where it is used). -/
def recordOf (adapter : Adapter) (payload : EventPayload) (model_key : String) : Attempt :=
  match keyOutcome adapter payload model_key with
  | Except.ok r => mkAttempt model_key r
  | Except.error _ => dAtt

/-- The failed attempt record for a key whose adapter call raised, given the
map from keys to recorded error texts. -/
def failAttempt (f : String → String) (model_key : String) : Attempt :=
  { model := model_key, name := get_model_name model_key,
    status := "failed", error := f model_key }

/-- The success attempt record for a key. -/
def succAttempt (model_key : String) : Attempt :=
  { model := model_key, name := get_model_name model_key,
    status := "success", error := "" }

/-- Test adapter: every provider call succeeds with content "OK". -/
def adapterAllOk : Adapter := fun _ _ _ _ => AdapterOutcome.ok "OK" [] none

/-- Test adapter: every provider call raises with message "boom". -/
def adapterBoom : Adapter := fun _ _ _ _ => AdapterOutcome.exn "boom"

/-- Test adapter: the call for provider id "gpt-4o" raises with "boom",
every other call succeeds with content "OK". -/
def adapterSecondOnly : Adapter := fun model_id _ _ _ =>
  if model_id = "gpt-4o" then AdapterOutcome.exn "boom"
  else AdapterOutcome.ok "OK" [] none

/-- Test payload: two known models, the primary one set up to fail. -/
def payloadTwo : EventPayload := { prompt := "p", models := ["gpt-4o", "claude-3-haiku"] }

/-- Test payload: two known models. -/
def payloadKnownTwo : EventPayload :=
  { prompt := "p", models := ["gpt-4o-mini", "gemini-1-5-pro"] }

/-- Test payload: one known model. -/
def payloadC4 : EventPayload := { prompt := "p", models := ["gpt-4o"] }

/-- Test payload: one known model, for the error-text theorems. -/
def payloadC5 : EventPayload := { prompt := "p", models := ["gpt-4o-mini"] }

/-- The response `process` returns on `payloadC5` with the always-raising
adapter. -/
def respC5 : SimpleResponse :=
  { success := false, error := some "All 1 models failed",
    attempts := some [{ model := "gpt-4o-mini", name := "GPT-4o Mini",
                        status := "failed", error := "GPT-4o Mini failed: boom" }] }

/-- Test payload: one known model, for the attempt-order theorem. -/
def payloadC6 : EventPayload := { prompt := "p", models := ["claude-3-5-sonnet"] }

/-- Test payload: all five fields explicit, for the round-trip witness. -/
def payloadC7 : EventPayload :=
  { prompt := "X", models := ["claude-3-5-sonnet"], max_tokens := 100,
    temperature := 1, request_id := some "r1" }

/-- The response `process` returns on `payloadC6` with the always-succeeding
adapter. -/
def respC6 : SimpleResponse :=
  { success := true, content := some "OK", model_used := some "claude-3-5-sonnet",
    cost := none, usage := some [],
    attempts := some [{ model := "claude-3-5-sonnet", name := "Claude 3.5 Sonnet (Direct)",
                        status := "success", error := "" }] }

/-- On an exhausted list, `process` reports that all models failed, with the
attempt history accumulated so far. -/
theorem processGo_nil (adapter : Adapter) (payload : EventPayload) (acc : List Attempt) :
    processGo adapter payload [] acc =
      Except.ok { success := false,
                  error := some ("All " ++ toString payload.models.length ++ " models failed"),
                  attempts := some acc } := rfl

/-- A key whose `_call_model` raises (unknown key) makes the whole loop
raise. -/
theorem processGo_cons_err (adapter : Adapter) (payload : EventPayload)
    (m e : String) (rest : List String) (acc : List Attempt)
    (h : keyOutcome adapter payload m = Except.error e) :
    processGo adapter payload (m :: rest) acc = Except.error e := by
  unfold keyOutcome at h
  unfold processGo
  rw [h]

/-- A key whose adapter call succeeds short-circuits the loop with a success
response. -/
theorem processGo_cons_success (adapter : Adapter) (payload : EventPayload)
    (m c mu : String) (u : Usage) (co : Option Rat) (rest : List String) (acc : List Attempt)
    (h : keyOutcome adapter payload m = Except.ok (CallResult.success c mu u co)) :
    processGo adapter payload (m :: rest) acc =
      Except.ok { success := true, content := some c, model_used := some m,
                  cost := co, usage := some u,
                  attempts := some (acc ++ [succAttempt m]) } := by
  unfold keyOutcome at h
  unfold processGo
  rw [h]
  rfl

/-- A key whose adapter call fails appends a failed attempt record and moves
on to the rest of the list. -/
theorem processGo_cons_failed (adapter : Adapter) (payload : EventPayload)
    (m e : String) (rest : List String) (acc : List Attempt)
    (h : keyOutcome adapter payload m = Except.ok (CallResult.failed e)) :
    processGo adapter payload (m :: rest) acc =
      processGo adapter payload rest
        (acc ++ [{ model := m, name := get_model_name m, status := "failed", error := e }]) := by
  unfold keyOutcome at h
  conv_lhs => unfold processGo
  rw [h]
  rfl

/-- Skipping a block of failing keys: the loop over `l1 ++ rest` where every
key of `l1` fails equals the loop over `rest` with the failed records of `l1`
appended. -/
theorem processGo_skip_failed (adapter : Adapter) (payload : EventPayload)
    (f : String → String) (l1 rest : List String) (acc : List Attempt)
    (h : ∀ x ∈ l1, keyOutcome adapter payload x = Except.ok (CallResult.failed (f x))) :
    processGo adapter payload (l1 ++ rest) acc =
      processGo adapter payload rest (acc ++ l1.map (failAttempt f)) := by
  induction l1 generalizing acc with
  | nil => simp
  | cons x l1 ih =>
    have hx := h x (List.mem_cons_self x l1)
    rw [List.cons_append, processGo_cons_failed adapter payload x (f x) (l1 ++ rest) acc hx]
    rw [ih _ (fun y hy => h y (List.mem_cons_of_mem x hy))]
    simp [failAttempt]

/-- Inversion of a failed `_call_model` outcome: the key resolved, the
adapter raised some message, and the recorded error text is the display name,
`" failed: "`, then that message. -/
theorem call_model_failed_inv (adapter : Adapter) (k pr : String) (mt : Int) (tp : Rat)
    (e : String) (h : call_model adapter k pr mt tp = Except.ok (CallResult.failed e)) :
    ∃ mid msg, AVAILABLE_MODELS.lookup k = some mid ∧
      adapter mid pr mt tp = AdapterOutcome.exn msg ∧
      e = get_model_name k ++ " failed: " ++ msg := by
  unfold call_model get_model_id at h
  cases hl : AVAILABLE_MODELS.lookup k with
  | none => rw [hl] at h; simp at h
  | some mid =>
    rw [hl] at h
    simp only [] at h
    cases ha : adapter mid pr mt tp with
    | ok c u co => rw [ha] at h; simp at h
    | exn msg =>
      rw [ha] at h
      simp at h
      exact ⟨mid, msg, rfl, ha, h.symm⟩

/-- Shape invariant of a loop run that returns: the attempts appended are the
records of a prefix of the remaining keys, each with a completed call, all
but the last failed, with the final success/failure data tied to the last
key tried. -/
theorem processGo_ok_shape (adapter : Adapter) (payload : EventPayload)
    (l : List String) (acc : List Attempt) (resp : SimpleResponse)
    (h : processGo adapter payload l acc = Except.ok resp) :
    ∃ atts : List Attempt,
      resp.attempts = some (acc ++ atts) ∧
      atts.map (fun a => a.model) = l.take atts.length ∧
      (∀ i, i < atts.length →
        atts.getD i dAtt = recordOf adapter payload (l.getD i "") ∧
        (keyOutcome adapter payload (l.getD i "")).isOk = true) ∧
      (∀ i, i + 1 < atts.length →
        ∃ e, keyOutcome adapter payload (l.getD i "") = Except.ok (CallResult.failed e)) ∧
      (resp.success = false →
        atts.length = l.length ∧
        ∀ i, i < atts.length →
          ∃ e, keyOutcome adapter payload (l.getD i "") = Except.ok (CallResult.failed e)) ∧
      (resp.success = true →
        0 < atts.length ∧
        resp.model_used = some (l.getD (atts.length - 1) "") ∧
        ∃ c mu u co, keyOutcome adapter payload (l.getD (atts.length - 1) "") =
          Except.ok (CallResult.success c mu u co)) := by
  induction l generalizing acc with
  | nil =>
    rw [processGo_nil] at h
    injection h with h
    subst h
    refine ⟨[], by simp, rfl, ?_, ?_, ?_, ?_⟩
    · intro i hi; exact absurd hi (Nat.not_lt_zero i)
    · intro i hi; exact absurd hi (by simp)
    · intro _; exact ⟨rfl, fun i hi => absurd hi (Nat.not_lt_zero i)⟩
    · intro hs; simp at hs
  | cons m rest ih =>
    cases hk : keyOutcome adapter payload m with
    | error e =>
      rw [processGo_cons_err adapter payload m e rest acc hk] at h
      simp at h
    | ok r =>
      cases r with
      | success c mu u co =>
        rw [processGo_cons_success adapter payload m c mu u co rest acc hk] at h
        injection h with h
        subst h
        refine ⟨[succAttempt m], by simp, by simp [succAttempt], ?_, ?_, ?_, ?_⟩
        · intro i hi
          have hi0 : i = 0 := by simpa using hi
          subst hi0
          constructor
          · simp only [List.getD_cons_zero]
            unfold recordOf
            rw [hk]
            rfl
          · simp only [List.getD_cons_zero]
            rw [hk]
            rfl
        · intro i hi
          exact absurd hi (by simp)
        · intro hs; simp at hs
        · intro _
          refine ⟨by simp, by simp, c, mu, u, co, ?_⟩
          simpa using hk
      | failed e =>
        rw [processGo_cons_failed adapter payload m e rest acc hk] at h
        obtain ⟨atts, A1, A2, A3, A4, A5, A6⟩ := ih _ h
        refine ⟨{ model := m, name := get_model_name m, status := "failed", error := e } :: atts,
                ?_, ?_, ?_, ?_, ?_, ?_⟩
        · rw [A1]; simp
        · simpa [List.take_succ_cons] using A2
        · intro i hi
          cases i with
          | zero =>
            constructor
            · simp only [List.getD_cons_zero]
              unfold recordOf
              rw [hk]
              rfl
            · simp only [List.getD_cons_zero]
              rw [hk]
              rfl
          | succ j =>
            simp only [List.getD_cons_succ]
            exact A3 j (by simpa using hi)
        · intro i hi
          cases i with
          | zero => exact ⟨e, by simpa using hk⟩
          | succ j =>
            simp only [List.getD_cons_succ]
            exact A4 j (by simpa using hi)
        · intro hs
          obtain ⟨hlen, hall⟩ := A5 hs
          refine ⟨by simp [hlen], ?_⟩
          intro i hi
          cases i with
          | zero => exact ⟨e, by simpa using hk⟩
          | succ j =>
            simp only [List.getD_cons_succ]
            exact hall j (by simpa using hi)
        · intro hs
          obtain ⟨hpos, hmu, c, mu, u, co, hko⟩ := A6 hs
          obtain ⟨n, hn⟩ : ∃ n, atts.length = n + 1 :=
            ⟨atts.length - 1, (Nat.succ_pred_eq_of_pos hpos).symm⟩
          have hn1 : atts.length - 1 = n := by omega
          refine ⟨by simp, ?_, c, mu, u, co, ?_⟩
          · have : (({ model := m, name := get_model_name m, status := "failed",
                       error := e } : Attempt) :: atts).length - 1 = n + 1 := by
              simp [hn]
            rw [this, List.getD_cons_succ, ← hn1]
            exact hmu
          · have : (({ model := m, name := get_model_name m, status := "failed",
                       error := e } : Attempt) :: atts).length - 1 = n + 1 := by
              simp [hn]
            rw [this, List.getD_cons_succ, ← hn1]
            exact hko

/-- A `_call_model` call completes (does not raise) exactly when the key is
in the registry, whatever the adapter does. -/
theorem call_model_isOk (adapter : Adapter) (pr : String) (mt : Int) (tp : Rat) (k : String) :
    (call_model adapter k pr mt tp).isOk = (AVAILABLE_MODELS.lookup k).isSome := by
  unfold call_model get_model_id
  cases hl : AVAILABLE_MODELS.lookup k with
  | none => rfl
  | some mid => cases ha : adapter mid pr mt tp <;> simp [ha, Except.isOk, Except.toBool]

/-- Totality of the loop when every remaining key is known: the loop returns
a response for every adapter behaviour. -/
theorem processGo_isOk_of_known (adapter : Adapter) (payload : EventPayload)
    (l : List String) (acc : List Attempt)
    (hknown : ∀ m ∈ l, (AVAILABLE_MODELS.lookup m).isSome = true) :
    (processGo adapter payload l acc).isOk = true := by
  induction l generalizing acc with
  | nil => rfl
  | cons m rest ih =>
    cases hc : keyOutcome adapter payload m with
    | error e =>
      exfalso
      have hok := call_model_isOk adapter payload.prompt payload.max_tokens payload.temperature m
      unfold keyOutcome at hc
      rw [hc, hknown m (List.mem_cons_self m rest)] at hok
      simp [Except.isOk, Except.toBool] at hok
    | ok r =>
      cases r with
      | success c mu u co =>
        rw [processGo_cons_success adapter payload m c mu u co rest acc hc]
        rfl
      | failed e =>
        rw [processGo_cons_failed adapter payload m e rest acc hc]
        exact ih _ (fun x hx => hknown x (List.mem_cons_of_mem m hx))

/-- C1: for a request whose model keys are all known to the registry, if the
adapter calls for the models at positions `0..k-1` fail and the call for the
model at position `k` succeeds, `process` returns a result with
`success = true`, `model_used = models[k]`, and `k + 1` attempts, every
attempt but the last marked failed and the last marked success; the
first-model-succeeds case is the instance `k = 0`. -/
theorem C1_fallback_first_success (adapter : Adapter) (payload : EventPayload)
    (k : Nat) (f : String → String) (c mu : String) (u : Usage) (co : Option Rat)
    (hk : k < payload.models.length)
    (hknown : ∀ m ∈ payload.models, (AVAILABLE_MODELS.lookup m).isSome = true)
    (hfail : ∀ x ∈ payload.models.take k,
      keyOutcome adapter payload x = Except.ok (CallResult.failed (f x)))
    (hsucc : keyOutcome adapter payload (payload.models.getD k "") =
      Except.ok (CallResult.success c mu u co)) :
    ∃ resp, process adapter payload = Except.ok resp ∧
      resp.success = true ∧
      resp.model_used = some (payload.models.getD k "") ∧
      ∃ atts, resp.attempts = some atts ∧ atts.length = k + 1 ∧
        (∀ i, i + 1 < atts.length → (atts.getD i dAtt).status = "failed") ∧
        (atts.getD k dAtt).status = "success" := by
  have hsplit : payload.models =
      payload.models.take k ++ payload.models.getD k "" :: payload.models.drop (k + 1) := by
    rw [List.getD_eq_getElem _ _ hk, ← List.drop_eq_getElem_cons hk, List.take_append_drop]
  have hlen : (payload.models.take k).length = k := by
    rw [List.length_take]
    omega
  have hrun : process adapter payload =
      Except.ok { success := true, content := some c,
                  model_used := some (payload.models.getD k ""), cost := co, usage := some u,
                  attempts := some ((payload.models.take k).map (failAttempt f) ++
                    [succAttempt (payload.models.getD k "")]) } := by
    unfold process
    conv_lhs => rw [hsplit]
    rw [processGo_skip_failed adapter payload f _ _ _ hfail,
        processGo_cons_success adapter payload _ c mu u co _ _ hsucc]
    simp
  refine ⟨_, hrun, rfl, rfl, _, rfl, ?_, ?_, ?_⟩
  · simp
    omega
  · intro i hi
    have hilt : i < ((payload.models.take k).map (failAttempt f)).length := by
      simp [hlen] at hi ⊢
      omega
    rw [List.getD_append _ _ _ _ hilt, List.getD_eq_getElem _ _ hilt, List.getElem_map]
    rfl
  · have hge : ((payload.models.take k).map (failAttempt f)).length ≤ k := by
      simp [hlen]
    rw [List.getD_append_right _ _ _ _ hge, List.length_map, hlen, Nat.sub_self]
    rfl

/-- C4: for a request in which every model key resolves and every adapter
call fails, `process` returns `success = false`, an attempts list as long as
the model list, and the error summary "All N models failed" where `N` is the
number of models in the list. -/
theorem C4_all_fail_exhausts (adapter : Adapter) (payload : EventPayload) (f : String → String)
    (hfail : ∀ m ∈ payload.models,
      keyOutcome adapter payload m = Except.ok (CallResult.failed (f m))) :
    ∃ resp, process adapter payload = Except.ok resp ∧
      resp.success = false ∧
      (∃ atts, resp.attempts = some atts ∧ atts.length = payload.models.length) ∧
      resp.error = some ("All " ++ toString payload.models.length ++ " models failed") := by
  have hrun : process adapter payload =
      Except.ok { success := false,
                  error := some ("All " ++ toString payload.models.length ++ " models failed"),
                  attempts := some (payload.models.map (failAttempt f)) } := by
    unfold process
    conv_lhs => rw [show payload.models = payload.models ++ [] from (List.append_nil _).symm]
    rw [processGo_skip_failed adapter payload f _ _ _ hfail, processGo_nil]
    simp
  exact ⟨_, hrun, rfl, ⟨_, rfl, by simp⟩, rfl⟩

/-- C2 counterexample: with a request whose first model key is unknown,
`process` raises the registry's `ValueError` (modelled as `Except.error`)
instead of recording a failed attempt, and the next model in the list is
never attempted. -/
theorem C2_unknown_key_counterexample :
    process adapterAllOk { prompt := "p", models := ["no-such-model", "gpt-4o"] } =
      Except.error (unknown_model_message "no-such-model") := by
  rfl

/-- C2 amended: when a model key absent from the registry is reached (all
earlier models having failed), `process` raises the `ValueError` of
`get_model_id` — no attempt record is made for that key and no later model
is attempted. -/
theorem C2_unknown_key_raises (adapter : Adapter) (payload : EventPayload)
    (f : String → String) (l1 rest : List String) (badKey : String)
    (hsplit : payload.models = l1 ++ badKey :: rest)
    (hbad : AVAILABLE_MODELS.lookup badKey = none)
    (hfail : ∀ x ∈ l1, keyOutcome adapter payload x = Except.ok (CallResult.failed (f x))) :
    process adapter payload = Except.error (unknown_model_message badKey) := by
  have hko : keyOutcome adapter payload badKey = Except.error (unknown_model_message badKey) := by
    unfold keyOutcome call_model get_model_id
    rw [hbad]
  unfold process
  conv_lhs => rw [hsplit]
  rw [processGo_skip_failed adapter payload f _ _ _ hfail,
      processGo_cons_err adapter payload badKey _ rest _ hko]

/-- Witness for the amended C2 at a concrete unknown key. -/
theorem C2_unknown_key_raises_witness :
    process adapterAllOk { prompt := "p", models := ["bogus-model"] } =
      Except.error (unknown_model_message "bogus-model") :=
  C2_unknown_key_raises adapterAllOk { prompt := "p", models := ["bogus-model"] }
    (fun _ => "") [] [] "bogus-model" rfl rfl
    (fun x hx => absurd hx (List.not_mem_nil x))

/-- C3 counterexample: a request containing an unknown key makes an
exception escape `process`, so `process` does not always return a
`SimpleResponse`. -/
theorem C3_exception_escapes_counterexample :
    process adapterBoom { prompt := "p", models := ["claude-3-haiku", "mystery-model"] } =
      Except.error (unknown_model_message "mystery-model") := by
  rfl

/-- C3 amended: for every request whose model keys are all known to the
registry, `process` never raises: it returns a `SimpleResponse` for every
adapter behaviour. -/
theorem C3_no_escape_when_keys_known (adapter : Adapter) (payload : EventPayload)
    (hknown : ∀ m ∈ payload.models, (AVAILABLE_MODELS.lookup m).isSome = true) :
    (process adapter payload).isOk = true :=
  processGo_isOk_of_known adapter payload payload.models [] hknown

/-- Witness for the amended C3 at a concrete request and adapter. -/
theorem C3_no_escape_when_keys_known_witness :
    (process adapterBoom payloadKnownTwo).isOk = true :=
  C3_no_escape_when_keys_known adapterBoom payloadKnownTwo (by decide)

/-- C5 counterexample: the failed attempt record does not carry the
adapter's message verbatim — the engine stores
`f"{model_name} failed: {str(e)}"`, so for adapter message "boom" the
recorded text is "GPT-4o failed: boom", which differs from "boom". -/
theorem C5_error_not_verbatim_counterexample :
    (∃ resp, process adapterBoom { prompt := "p", models := ["gpt-4o"] } = Except.ok resp ∧
      resp.attempts = some [{ model := "gpt-4o", name := "GPT-4o", status := "failed",
                              error := "GPT-4o failed: boom" }]) ∧
    "GPT-4o failed: boom" ≠ "boom" := by
  exact ⟨⟨_, rfl, rfl⟩, by decide⟩

/-- C5 amended: every failed attempt record appended by the engine carries
the display name, the text " failed: ", and then the adapter's message
verbatim as a suffix. -/
theorem C5_error_prefixed (adapter : Adapter) (payload : EventPayload)
    (resp : SimpleResponse) (atts : List Attempt) (i : Nat)
    (h : process adapter payload = Except.ok resp)
    (ha : resp.attempts = some atts)
    (hi : i < atts.length)
    (hf : (atts.getD i dAtt).status = "failed") :
    ∃ mid msg,
      AVAILABLE_MODELS.lookup ((atts.getD i dAtt).model) = some mid ∧
      adapter mid payload.prompt payload.max_tokens payload.temperature = AdapterOutcome.exn msg ∧
      (atts.getD i dAtt).error = get_model_name ((atts.getD i dAtt).model) ++ " failed: " ++ msg := by
  obtain ⟨atts2, A1, A2, A3, A4, A5, A6⟩ :=
    processGo_ok_shape adapter payload payload.models [] resp h
  rw [ha] at A1
  obtain rfl : atts = atts2 := by simpa using A1
  obtain ⟨hrec, hok⟩ := A3 i hi
  cases hko : keyOutcome adapter payload (payload.models.getD i "") with
  | error e =>
    rw [hko] at hok
    simp [Except.isOk, Except.toBool] at hok
  | ok r =>
    have hrec2 : atts.getD i dAtt = mkAttempt (payload.models.getD i "") r := by
      rw [hrec]
      unfold recordOf
      rw [hko]
    cases r with
    | success c mu u co =>
      exfalso
      rw [hrec2] at hf
      simp [mkAttempt] at hf
    | failed e =>
      obtain ⟨mid, msg, hmid, hexn, he⟩ :=
        call_model_failed_inv adapter (payload.models.getD i "") payload.prompt
          payload.max_tokens payload.temperature e hko
      refine ⟨mid, msg, ?_, hexn, ?_⟩
      · rw [hrec2]
        simpa [mkAttempt] using hmid
      · rw [hrec2]
        simpa [mkAttempt] using he

/-- Witness for the amended C5 at a concrete failing run. -/
theorem C5_error_prefixed_witness :
    ∃ mid msg,
      AVAILABLE_MODELS.lookup (((respC5.attempts.getD []).getD 0 dAtt).model) = some mid ∧
      adapterBoom mid payloadC5.prompt payloadC5.max_tokens payloadC5.temperature =
        AdapterOutcome.exn msg ∧
      ((respC5.attempts.getD []).getD 0 dAtt).error =
        get_model_name (((respC5.attempts.getD []).getD 0 dAtt).model) ++ " failed: " ++ msg :=
  C5_error_prefixed adapterBoom payloadC5 respC5 (respC5.attempts.getD []) 0
    (by rfl) (by rfl) (by decide) (by rfl)

/-- C6: in every returning execution of `process`, the i-th attempt is for
`models[i]` (the attempts' models are a prefix of the model list, so each
position is attempted at most once and in list order), and an attempt is
marked success exactly when the run succeeded and it is the last attempt, so
no model is attempted after a success. -/
theorem C6_monotonic_attempt_order (adapter : Adapter) (payload : EventPayload)
    (resp : SimpleResponse) (h : process adapter payload = Except.ok resp) :
    ∃ atts, resp.attempts = some atts ∧
      atts.map (fun a => a.model) = payload.models.take atts.length ∧
      ∀ i, i < atts.length →
        ((atts.getD i dAtt).status = "success" ↔
          resp.success = true ∧ i + 1 = atts.length) := by
  obtain ⟨atts, A1, A2, A3, A4, A5, A6⟩ :=
    processGo_ok_shape adapter payload payload.models [] resp h
  refine ⟨atts, by simpa using A1, A2, ?_⟩
  intro i hi
  obtain ⟨hrec, hok⟩ := A3 i hi
  constructor
  · intro hs
    cases hko : keyOutcome adapter payload (payload.models.getD i "") with
    | error e =>
      rw [hko] at hok
      simp [Except.isOk, Except.toBool] at hok
    | ok r =>
      have hrec2 : atts.getD i dAtt = mkAttempt (payload.models.getD i "") r := by
        rw [hrec]
        unfold recordOf
        rw [hko]
      cases r with
      | failed e =>
        rw [hrec2] at hs
        simp [mkAttempt] at hs
      | success c mu u co =>
        have hlast : i + 1 = atts.length := by
          by_contra hne
          have hlt : i + 1 < atts.length := by omega
          obtain ⟨e, hfe⟩ := A4 i hlt
          rw [hko] at hfe
          simp at hfe
        have hsucc : resp.success = true := by
          by_contra hns
          have hfalse : resp.success = false := by
            cases hb : resp.success
            · rfl
            · exact absurd hb hns
          obtain ⟨_, hall⟩ := A5 hfalse
          obtain ⟨e, hfe⟩ := hall i hi
          rw [hko] at hfe
          simp at hfe
        exact ⟨hsucc, hlast⟩
  · rintro ⟨hsucc, hlast⟩
    obtain ⟨hpos, hmu, c, mu, u, co, hko⟩ := A6 hsucc
    have hi1 : i = atts.length - 1 := by omega
    subst hi1
    rw [hrec]
    unfold recordOf
    rw [hko]
    rfl

/-- Witness for C6 at a concrete successful run. -/
theorem C6_monotonic_attempt_order_witness :
    ∃ atts, respC6.attempts = some atts ∧
      atts.map (fun a => a.model) = payloadC6.models.take atts.length ∧
      ∀ i, i < atts.length →
        ((atts.getD i dAtt).status = "success" ↔
          respC6.success = true ∧ i + 1 = atts.length) :=
  C6_monotonic_attempt_order adapterAllOk payloadC6 respC6 (by rfl)

/-- Witness for C1 at a concrete two-model request whose primary model's
adapter call fails and whose first fallback succeeds. -/
theorem C1_fallback_first_success_witness :
    ∃ resp, process adapterSecondOnly payloadTwo = Except.ok resp ∧
      resp.success = true ∧
      resp.model_used = some (payloadTwo.models.getD 1 "") ∧
      ∃ atts, resp.attempts = some atts ∧ atts.length = 1 + 1 ∧
        (∀ i, i + 1 < atts.length → (atts.getD i dAtt).status = "failed") ∧
        (atts.getD 1 dAtt).status = "success" :=
  C1_fallback_first_success adapterSecondOnly payloadTwo 1 (fun _ => "GPT-4o failed: boom")
    "OK" "claude-3-haiku-20240307" [] none
    (by decide) (by decide)
    (by
      intro x hx
      have hx2 : x = "gpt-4o" := by simpa [payloadTwo] using hx
      subst hx2
      rfl)
    (by rfl)

/-- Witness for C4 at a concrete one-model request whose adapter call
fails. -/
theorem C4_all_fail_exhausts_witness :
    ∃ resp, process adapterBoom payloadC4 = Except.ok resp ∧
      resp.success = false ∧
      (∃ atts, resp.attempts = some atts ∧ atts.length = payloadC4.models.length) ∧
      resp.error = some ("All " ++ toString payloadC4.models.length ++ " models failed") :=
  C4_all_fail_exhausts adapterBoom payloadC4 (fun _ => "GPT-4o failed: boom")
    (by
      intro m hm
      have hm2 : m = "gpt-4o" := by simpa [payloadC4] using hm
      subst hm2
      rfl)

/-- C7: serializing a valid request and deserializing it yields an equal
request — the round trip is lossless for prompt, models, max_tokens,
temperature and request_id. -/
theorem C7_json_round_trip (p : EventPayload)
    (h1 : p.models ≠ []) (h2 : 0 < p.max_tokens)
    (h3 : 0 ≤ p.temperature ∧ p.temperature ≤ 2) :
    EventPayload.from_json (EventPayload.to_json p) = some p := by
  cases p with
  | mk pr ms mt tp rid =>
    cases rid <;>
      simp [EventPayload.to_json, EventPayload.to_dict, EventPayload.from_json,
            EventPayload.from_dict, readMaxTokens, readTemperature, readRequestId,
            List.lookup]

/-- Witness for C7 at a concrete valid request with every field set. -/
theorem C7_json_round_trip_witness :
    EventPayload.from_json (EventPayload.to_json payloadC7) = some payloadC7 :=
  C7_json_round_trip payloadC7 (by decide) (by decide) (by decide)

/-- C8: for a non-empty model list, `primary_model` is `models[0]`,
`fallback_models` is `models[1:]`, and `fallback_models` is empty when the
list has exactly one entry. -/
theorem C8_primary_and_fallbacks (p : EventPayload) (h : p.models ≠ []) :
    p.primary_model = some (p.models.getD 0 "") ∧
    p.fallback_models = p.models.drop 1 ∧
    (p.models.length = 1 → p.fallback_models = []) := by
  unfold EventPayload.primary_model EventPayload.fallback_models
  cases hm : p.models with
  | nil => exact absurd hm h
  | cons a l =>
    refine ⟨rfl, ?_, ?_⟩
    · cases l <;> simp
    · intro hl
      cases l with
      | nil => simp
      | cons b l2 => simp at hl

/-- Witness for C8 at a concrete two-model request. -/
theorem C8_primary_and_fallbacks_witness :
    payloadKnownTwo.primary_model = some (payloadKnownTwo.models.getD 0 "") ∧
    payloadKnownTwo.fallback_models = payloadKnownTwo.models.drop 1 ∧
    (payloadKnownTwo.models.length = 1 → payloadKnownTwo.fallback_models = []) :=
  C8_primary_and_fallbacks payloadKnownTwo (by decide)

/-- C9: the display-name lookup never fails — it returns the registered
friendly name when one exists and the key itself otherwise. -/
theorem C9_display_name_total (key : String) :
    (∀ n, MODEL_NAMES.lookup key = some n → get_model_name key = n) ∧
    (MODEL_NAMES.lookup key = none → get_model_name key = key) := by
  constructor
  · intro n hn
    unfold get_model_name
    rw [hn]
    rfl
  · intro hn
    unfold get_model_name
    rw [hn]
    rfl

/-- Witness for C9 at a registered key and an unregistered one. -/
theorem C9_display_name_total_witness :
    get_model_name "gpt-4o" = "GPT-4o" ∧
    get_model_name "mystery-key" = "mystery-key" :=
  ⟨(C9_display_name_total "gpt-4o").1 "GPT-4o" (by rfl),
   (C9_display_name_total "mystery-key").2 (by rfl)⟩

/-- C10: constructing a request from a dict supplying only `prompt` and
`models` applies the dataclass defaults `max_tokens = 4000`,
`temperature = 0.7` (embedded as `7/10`) and `request_id = None`. -/
theorem C10_from_dict_defaults (pr : String) (ms : List String) :
    EventPayload.from_dict [("prompt", PyValue.vstr pr), ("models", PyValue.vlist ms)] =
      some { prompt := pr, models := ms, max_tokens := 4000,
             temperature := 7/10, request_id := none } := by
  simp [EventPayload.from_dict, readMaxTokens, readTemperature, readRequestId, List.lookup]

end LLMFallback
